import Mathlib

/-!
Shallow embedding of the quota-aware synchronization and multi-source
aggregation layer of the OBM dashboard repository.

The definitions below are translated from the TypeScript source:
  * `src/src/services/optimizedChatService.ts` (cache, usage meter,
    debounced listener management, rate limiter, presence subscription,
    message sending),
  * `src/src/hooks/useOptimizedChatService.ts` (the hook-level send path),
  * the optimized data-sources hook (`useOptimizedDataSources`) found in
    `src/unnamed/part_010` (feed normalization, dedup predicate, aggregate),
  * `src/src/pages/ChatDashboard.tsx` (`mapWebhookCategory`).

Conventions of the embedding:
  * `Date.now()` instants are natural numbers (milliseconds) passed
    explicitly as a `now` argument; mutation of module state becomes
    explicit state passing.
  * JavaScript `a || b` chains over possibly-undefined string fields are
    modelled over `Option String`, where `none` stands for `undefined` and
    the empty string is falsy, exactly as in JS.
  * A JS `Map` becomes an association list with at-most-one binding per
    key (`set` removes the old binding before consing the new one).
  * `Array.prototype.sort` with a numeric comparator becomes the stable
    `List.mergeSort` with the corresponding boolean relation.
-/

namespace OBM

/-! ### JavaScript-style helpers -/

/-- JS `a || b` on possibly-undefined strings: the left operand wins when
it is truthy (defined and non-empty), otherwise the right operand is the
value of the expression (even when it is itself falsy). -/
def jsOr : Option String → Option String → Option String
  | some s, b => if s = "" then b else some s
  | none, b => b

/-- A chain `f₁ || f₂ || ... || dflt` ending in a string literal default:
the first truthy field wins, otherwise the default. -/
def firstTruthy : List (Option String) → String → String
  | [], dflt => dflt
  | none :: rest, dflt => firstTruthy rest dflt
  | some s :: rest, dflt => if s = "" then firstTruthy rest dflt else s

/-! ### Expiring cache (`optimizedChatService.ts` lines 43-47, 84-104)

`CachedData` mirrors the interface of the same name; the cache `Map` is an
association list keyed by strings. -/

structure CachedData (α : Type) where
  data : α
  timestamp : Nat
  expiresAt : Nat
deriving DecidableEq, Repr

/-- The `cache` map of `OptimizedChatService`. -/
abbrev Cache (α : Type) : Type := List (String × CachedData α)

/-- Lookup (`Map.get`) on the cache: first (and only) binding for the key. -/
def cacheLookup {α : Type} : Cache α → String → Option (CachedData α)
  | [], _ => none
  | (k, v) :: rest, key => if k = key then some v else cacheLookup rest key

/-- Deletion (`Map.delete`): remove the binding for the key. -/
def cacheDelete {α : Type} (c : Cache α) (key : String) : Cache α :=
  c.filter (fun e => e.1 ≠ key)

/-- Constant `CACHE_DURATION = 30000` (30 seconds). -/
def CACHE_DURATION : Nat := 30000

/-- Constant `DEBOUNCE_DELAY = 1000` (1 second). -/
def DEBOUNCE_DELAY : Nat := 1000

/-- Constant `DEFAULT_MESSAGE_LIMIT = 50`. -/
def DEFAULT_MESSAGE_LIMIT : Nat := 50

/-- Constant `MAX_PRESENCE_USERS = 20`. -/
def MAX_PRESENCE_USERS : Nat := 20

/-- Source `getCachedData<T>(key)`: returns the cached value unless the entry is
missing or expired; an expired entry is deleted.  The result pairs the
returned value with the cache state after the call.  The expiry test is
`Date.now() > cached.expiresAt`, strict. -/
def getCachedData {α : Type} (c : Cache α) (key : String) (now : Nat) :
    Option α × Cache α :=
  match cacheLookup c key with
  | none => (none, c)
  | some cached =>
    if now > cached.expiresAt then (none, cacheDelete c key)
    else (some cached.data, c)

/-- Source `setCachedData<T>(key, data, duration)`: `Map.set` with
`timestamp = Date.now()` and `expiresAt = Date.now() + duration`. -/
def setCachedData {α : Type} (c : Cache α) (key : String) (data : α)
    (now : Nat) (duration : Nat) : Cache α :=
  (key, { data := data, timestamp := now, expiresAt := now + duration }) ::
    cacheDelete c key

/-! ### Usage meter (`optimizedChatService.ts` lines 49-81, 396-410) -/

structure FirebaseUsageStats where
  reads : Nat
  writes : Nat
  lastReset : Nat
deriving DecidableEq, Repr

/-- Milliseconds in 24 hours; `hoursSinceReset >= 24` in the source is
`(now - lastReset) / (1000*60*60) >= 24` over exact arithmetic, which is
equivalent to `now - lastReset >= 86400000`. -/
def DAY_MS : Nat := 24 * 60 * 60 * 1000

/-- Source `getUsageStats()`: lazily resets both counters and the window start
when at least 24 hours have elapsed, then returns a copy.  The pair is
(returned snapshot, usage state after the call). -/
def getUsageStats (stats : FirebaseUsageStats) (now : Nat) :
    FirebaseUsageStats × FirebaseUsageStats :=
  if DAY_MS ≤ now - stats.lastReset then
    let fresh : FirebaseUsageStats := { reads := 0, writes := 0, lastReset := now }
    (fresh, fresh)
  else
    (stats, stats)

/-- Source `incrementReads(count)`; the source defaults `count` to 1. -/
def incrementReads (stats : FirebaseUsageStats) (count : Nat) :
    FirebaseUsageStats :=
  { stats with reads := stats.reads + count }

/-- Source `incrementWrites(count)`; the source defaults `count` to 1. -/
def incrementWrites (stats : FirebaseUsageStats) (count : Nat) :
    FirebaseUsageStats :=
  { stats with writes := stats.writes + count }

/-- Constant `maxReadsPerDay = 500` inside `checkRateLimit`. -/
def maxReadsPerDay : Nat := 500

/-- Source `checkRateLimit()`: consults `getUsageStats()` (which may lazily reset
the window) and returns `false` exactly when `stats.reads > maxReadsPerDay`;
the 80% branch only logs a warning and does not change the result. -/
def checkRateLimit (stats : FirebaseUsageStats) (now : Nat) :
    Bool × FirebaseUsageStats :=
  let (snap, stats') := getUsageStats stats now
  if snap.reads > maxReadsPerDay then (false, stats')
  else (true, stats')

/-! ### Subscription coalescer (`setupDebouncedListener`,
`optimizedChatService.ts` lines 107-132)

The model fixes one logical key and tracks, for that key:

  * `timers` — the `setTimeout` callbacks scheduled and neither fired nor
    cleared, each carrying a fresh timer id, the factory it will run, and
    its fire time;
  * `timerSlot` — the `debounceTimers` map entry for the key;
  * `listenerSlot` — the `activeListeners` map entry for the key (the
    source never deletes it when tearing a listener down inside
    `setupDebouncedListener`, so it can point at an already-cancelled
    handle);
  * `live` — the factories whose subscription has been created and not
    yet unsubscribed;
  * `invoked` — every factory that has been run.

Factories are identified by natural numbers. -/

structure CoalescerState where
  timers : List (Nat × Nat × Nat)
  timerSlot : Option Nat
  listenerSlot : Option Nat
  live : List Nat
  invoked : List Nat
  now : Nat
  nextId : Nat
deriving DecidableEq, Repr

/-- The state before any call: empty maps, no timers, clock at zero. -/
def initCoalescer : CoalescerState :=
  { timers := [], timerSlot := none, listenerSlot := none, live := [],
    invoked := [], now := 0, nextId := 0 }

/-- Source `setupDebouncedListener(key, listenerFn, delay)`: clear the pending
timer recorded in `debounceTimers` (if any), invoke the unsubscribe
recorded in `activeListeners` (if any), then schedule the factory after
`delay` and record the new timer. -/
def setupDebouncedListener (st : CoalescerState) (f : Nat)
    (delay : Nat) : CoalescerState :=
  let timers1 := match st.timerSlot with
    | some tid => st.timers.filter (fun t => t.1 ≠ tid)
    | none => st.timers
  let live1 := match st.listenerSlot with
    | some h => st.live.filter (fun x => x ≠ h)
    | none => st.live
  { st with
    timers := (st.nextId, f, st.now + delay) :: timers1
    timerSlot := some st.nextId
    live := live1
    nextId := st.nextId + 1 }

/-- The body of the scheduled timer: run the factory, store the returned
unsubscribe in `activeListeners`, delete the `debounceTimers` entry.  The
event fires the first scheduled timer whose fire time has been reached;
when no timer is due nothing happens. -/
def fireDueTimer (st : CoalescerState) : CoalescerState :=
  match st.timers.find? (fun t => t.2.2 ≤ st.now) with
  | none => st
  | some (tid, f, _) =>
    { st with
      timers := st.timers.filter (fun t => t.1 ≠ tid)
      invoked := f :: st.invoked
      live := f :: st.live
      listenerSlot := some f
      timerSlot := none }

/-- Events observable at one key: an `ensure` call
(`setupDebouncedListener`), the passage of time, and the attempt of the
runtime to fire a due timer. -/
inductive CoalescerEvent where
  | ensure (f : Nat) (delay : Nat)
  | advance (dt : Nat)
  | fire
deriving DecidableEq, Repr

def coalescerStep (st : CoalescerState) : CoalescerEvent → CoalescerState
  | .ensure f delay => setupDebouncedListener st f delay
  | .advance dt => { st with now := st.now + dt }
  | .fire => fireDueTimer st

def coalescerRun (st : CoalescerState) (evs : List CoalescerEvent) :
    CoalescerState :=
  evs.foldl coalescerStep st

/-- The per-key invariant: at most one pending timer, at most one live
handle, no live handle while a timer is pending, and the map slots are
consistent with the pending timers and live handles. -/
def CoalescerInv (st : CoalescerState) : Prop :=
  st.timers.length ≤ 1 ∧ st.live.length ≤ 1 ∧
  (st.timers ≠ [] → st.live = []) ∧
  (∀ f ∈ st.live, st.listenerSlot = some f) ∧
  (∀ t ∈ st.timers, st.timerSlot = some t.1)

/-! ### Outbound send (`optimizedChatService.ts` lines 413-455 and
`useOptimizedChatService.ts` lines 206-223)

`serverTimestamp()` resolves to the `now` argument; the batched write is
modelled as one state transition that appends the message, updates the
parent conversation, records two writes and deletes the one cache key the
source deletes. -/

inductive SenderType where
  | operator
  | customer
deriving DecidableEq, Repr

structure ChatMessage where
  conversationId : String
  senderId : String
  senderType : SenderType
  content : String
  timestamp : Nat
deriving DecidableEq, Repr

structure Conversation where
  lastMessageAt : Nat
  updatedAt : Nat
  unreadCount : Nat
deriving DecidableEq, Repr

structure ServiceState where
  cache : Cache (List ChatMessage)
  usageStats : FirebaseUsageStats
  chatMessages : List ChatMessage
  conversations : List (String × Conversation)
deriving DecidableEq, Repr

/-- The update `batch.update(conversationRef, ...)`: set `lastMessageAt`/`updatedAt`
to the server time and `unreadCount` to `increment(1)` for a customer
sender, `0` for an operator sender. -/
def updateConversationOnSend (convs : List (String × Conversation))
    (conversationId : String) (senderType : SenderType) (now : Nat) :
    List (String × Conversation) :=
  convs.map fun e =>
    if e.1 = conversationId then
      (e.1, { lastMessageAt := now, updatedAt := now,
              unreadCount := match senderType with
                | .customer => e.2.unreadCount + 1
                | .operator => 0 })
    else e

/-- The cache key cleared by `sendMessage`:
`messages_<conversationId>_<DEFAULT_MESSAGE_LIMIT>`. -/
def messagesCacheKey (conversationId : String) (limitCount : Nat) : String :=
  "messages_" ++ conversationId ++ "_" ++ toString limitCount

/-- Source `OptimizedChatService.sendMessage`: build the message, commit the
batch (message append + conversation update), record two writes, delete
the cache entry for the conversation's message list at the default limit,
and return the message. -/
def sendMessage (st : ServiceState) (conversationId senderId : String)
    (senderType : SenderType) (content : String) (now : Nat) :
    ServiceState × ChatMessage :=
  let message : ChatMessage :=
    { conversationId := conversationId, senderId := senderId,
      senderType := senderType, content := content, timestamp := now }
  ({ cache := cacheDelete st.cache
        (messagesCacheKey conversationId DEFAULT_MESSAGE_LIMIT)
     usageStats := incrementWrites st.usageStats 2
     chatMessages := st.chatMessages ++ [message]
     conversations :=
       updateConversationOnSend st.conversations conversationId senderType now },
   message)

/-- The hook-level `sendMessage` of `useOptimizedChatService`: return
immediately (no state change) when there is no current user or the content
trims to the empty string; otherwise delegate to
`OptimizedChatService.sendMessage` with sender type `operator` and the
trimmed content.  No rate-limit check appears on this path. -/
def hookSendMessage (currentUser : Option String) (st : ServiceState)
    (conversationId content : String) (now : Nat) : ServiceState :=
  match currentUser with
  | none => st
  | some uid =>
    if content.trim = "" then st
    else (sendMessage st conversationId uid .operator content.trim now).1

/-! ### Data sources and the unified message record
(`useOptimizedDataSources` in `src/unnamed/part_010`) -/

inductive DataSource where
  | webhook
  | firebase
  | google_sheets
deriving DecidableEq, Repr

inductive Sender where
  | operator
  | customer
deriving DecidableEq, Repr

inductive Direction where
  | inbound
  | outbound
deriving DecidableEq, Repr

structure UnifiedMessage where
  id : String
  phone_number : String
  name : String
  product : String
  category : String
  intent : String
  message : String
  timestamp : Nat
  source : DataSource
  sender : Sender
  direction : Direction
  type : String
deriving DecidableEq, Repr

/-- A raw Firestore document as consumed by `getFirebaseMessages`.  Every
field the source reads is optional (`none` = the property is absent).
`PhoneNumber` stands for the JS property `"Phone Number"`, `ProfileName`
for `"Profile Name"`, `TypeF`/`typeF` for `Type`/`type`.  The
timestamp-bearing fields (`ReceivedAt`, `Time`, `time`, `timestamp`,
`createdAt`, `updatedAt`) each collapse the Firestore representation
variants (Timestamp object, `seconds` record, ISO string) into the resolved
instant in milliseconds. -/
structure RawFirebaseDoc where
  id : Option String := none
  PhoneNumber : Option String := none
  phone_number : Option String := none
  Phone_number : Option String := none
  ProfileName : Option String := none
  name : Option String := none
  Name : Option String := none
  customer_name : Option String := none
  Customer_name : Option String := none
  product : Option String := none
  Product : Option String := none
  category : Option String := none
  Category : Option String := none
  intent : Option String := none
  Intent : Option String := none
  Message : Option String := none
  message : Option String := none
  Message_body : Option String := none
  message_body : Option String := none
  Sender : Option String := none
  sender : Option String := none
  TypeF : Option String := none
  typeF : Option String := none
  ReceivedAt : Option Nat := none
  Time : Option Nat := none
  time : Option Nat := none
  timestamp : Option Nat := none
  createdAt : Option Nat := none
  updatedAt : Option Nat := none
deriving DecidableEq, Repr

/-- The timestamp cascade of `getFirebaseMessages`: `ReceivedAt`, then
`Time`, `time`, `timestamp`, `createdAt`, `updatedAt`, defaulting to
`new Date()` (the current instant). -/
def resolveFirebaseTimestamp (doc : RawFirebaseDoc) (now : Nat) : Nat :=
  ((((((doc.ReceivedAt).orElse fun _ => doc.Time).orElse fun _ =>
    doc.time).orElse fun _ => doc.timestamp).orElse fun _ =>
    doc.createdAt).orElse fun _ => doc.updatedAt).getD now

/-- The body of the `map` inside `getFirebaseMessages`: field-by-field
fallback chains with explicit defaults, sender classification by
lower-cased comparison with `"operator"`, and direction derived from the
sender. -/
def normalizeFirebaseDoc (now : Nat) (index : Nat) (doc : RawFirebaseDoc) :
    UnifiedMessage :=
  let sender : Sender :=
    if (firstTruthy [doc.Sender, doc.sender] "Customer").toLower = "operator"
    then .operator else .customer
  { id := firstTruthy [doc.id]
      ("firebase-" ++ toString now ++ "-" ++ toString index)
    phone_number :=
      firstTruthy [doc.PhoneNumber, doc.phone_number, doc.Phone_number] "N/A"
    name := firstTruthy
      [doc.ProfileName, doc.name, doc.Name, doc.customer_name,
       doc.Customer_name] "Unknown Customer"
    product := firstTruthy [doc.product, doc.Product] "No product specified"
    category := firstTruthy [doc.category, doc.Category] "Enquiry"
    intent := firstTruthy [doc.intent, doc.Intent] "General"
    message := firstTruthy
      [doc.Message, doc.message, doc.Message_body, doc.message_body]
      "No message content"
    timestamp := resolveFirebaseTimestamp doc now
    source := .firebase
    sender := sender
    direction := match sender with | .operator => .outbound | .customer => .inbound
    type := firstTruthy [doc.TypeF, doc.typeF] "text" }

/-- Source `getFirebaseMessages` of `useOptimizedDataSources`: empty when the
Firebase origin is disabled, the data is absent, or the circuit breaker is
open; otherwise the first 100 raw documents, normalized. -/
def getFirebaseMessages (enabled : List DataSource) (isRateLimited : Bool)
    (firebaseData : Option (List RawFirebaseDoc)) (now : Nat) :
    List UnifiedMessage :=
  if DataSource.firebase ∉ enabled ∨ firebaseData = none ∨ isRateLimited then []
  else
    ((firebaseData.getD []).take 100).mapIdx fun index doc =>
      normalizeFirebaseDoc now index doc

/-- A Google Sheets row as consumed by `getSheetsMessages`: the
capitalized fields are always produced by the sheet fetch, the lowercase
variants and `id`/`timestamp` are optional.  `timestampMs` is the parsed
`timestamp` string. -/
structure SheetsRow where
  id : Option String := none
  phone_number : String
  name : String
  Product : String
  Category : String
  Intent : String
  Message : String
  product : Option String := none
  category : Option String := none
  intent : Option String := none
  message : Option String := none
  timestampMs : Option Nat := none
deriving DecidableEq, Repr

/-- The body of the `map` inside `getSheetsMessages` (sheets records are
always inbound customer text). -/
def normalizeSheetsRow (now : Nat) (index : Nat) (row : SheetsRow) :
    UnifiedMessage :=
  { id := firstTruthy [row.id] ("sheets-" ++ toString now ++ "-" ++ toString index)
    phone_number := firstTruthy [some row.phone_number] ""
    name := row.name
    product := firstTruthy [row.product, some row.Product] ""
    category := firstTruthy [row.category, some row.Category] ""
    intent := firstTruthy [row.intent, some row.Intent] ""
    message := firstTruthy [row.message, some row.Message] ""
    timestamp := row.timestampMs.getD now
    source := .google_sheets
    sender := .customer
    direction := .inbound
    type := "text" }

/-- Source `getSheetsMessages` of `useOptimizedDataSources`: empty when the
sheets origin is disabled or the data is absent; otherwise the first 15
rows, normalized. -/
def getSheetsMessages (enabled : List DataSource)
    (sheetsData : Option (List SheetsRow)) (now : Nat) :
    List UnifiedMessage :=
  if DataSource.google_sheets ∉ enabled ∨ sheetsData = none then []
  else
    ((sheetsData.getD []).take 15).mapIdx fun index row =>
      normalizeSheetsRow now index row

/-- A raw webhook record (`WebhookMessage` interface). -/
structure WebhookMessage where
  phone_number : String
  name : String
  product : Option String := none
  Product : Option String := none
  category : Option String := none
  Category : Option String := none
  intent : Option String := none
  Intent : Option String := none
  message : Option String := none
  Message : Option String := none
  id : Option String := none
  timestamp : Option Nat := none
deriving DecidableEq, Repr

/-- Source `isDuplicateMessage(newMsg, existingMessages)`: some existing message
agrees with the webhook record on `phone_number`, on
`newMsg.message || newMsg.Message` and on `newMsg.product || newMsg.Product`
(strict equality against a possibly-undefined right-hand side). -/
def isDuplicateMessage (newMsg : WebhookMessage)
    (existingMessages : List UnifiedMessage) : Bool :=
  existingMessages.any fun existing =>
    existing.phone_number = newMsg.phone_number ∧
    some existing.message = jsOr newMsg.message newMsg.Message ∧
    some existing.product = jsOr newMsg.product newMsg.Product

/-- The comparator `(a, b) => new Date(b.timestamp) - new Date(a.timestamp)`
passed to `Array.prototype.sort`: a stable sort placing greater timestamps
first. -/
def sortByTimestampDesc (messages : List UnifiedMessage) :
    List UnifiedMessage :=
  messages.mergeSort fun a b => decide (b.timestamp ≤ a.timestamp)

/-- Source `getAllMessages` of `useOptimizedDataSources`: concatenate the first
15 webhook messages, the converted Firebase messages and the converted
sheets messages (each origin contributing only when enabled, Firebase only
when the breaker is closed), then sort descending by timestamp and keep
the first 100.  No deduplication happens here. -/
def getAllMessages (enabled : List DataSource) (isRateLimited : Bool)
    (webhookMessages : List UnifiedMessage)
    (firebaseData : Option (List RawFirebaseDoc))
    (sheetsData : Option (List SheetsRow)) (now : Nat) :
    List UnifiedMessage :=
  let messages :=
    (if DataSource.webhook ∈ enabled then webhookMessages.take 15 else []) ++
    (if DataSource.firebase ∈ enabled ∧ ¬isRateLimited then
      getFirebaseMessages enabled isRateLimited firebaseData now else []) ++
    (if DataSource.google_sheets ∈ enabled then
      getSheetsMessages enabled sheetsData now else [])
  (sortByTimestampDesc messages).take 100

/-- The pre-sort combined list inside `getAllMessages` (the value of
`messages` right before `.sort(...).slice(0, 100)`). -/
def combinedMessages (enabled : List DataSource) (isRateLimited : Bool)
    (webhookMessages : List UnifiedMessage)
    (firebaseData : Option (List RawFirebaseDoc))
    (sheetsData : Option (List SheetsRow)) (now : Nat) :
    List UnifiedMessage :=
  (if DataSource.webhook ∈ enabled then webhookMessages.take 15 else []) ++
  (if DataSource.firebase ∈ enabled ∧ ¬isRateLimited then
    getFirebaseMessages enabled isRateLimited firebaseData now else []) ++
  (if DataSource.google_sheets ∈ enabled then
    getSheetsMessages enabled sheetsData now else [])

/-! ### Category mapping (`mapWebhookCategory`, `ChatDashboard.tsx`) -/

/-- Source `mapWebhookCategory(category)`: lower-case, trim, then match against
the fixed synonym table; anything unrecognized maps to `"enquiries"`. -/
def mapWebhookCategory (category : String) : String :=
  let normalizedCategory := category.toLower.trim
  if normalizedCategory ∈
      ["new order", "neworder", "purchase request", "purchaserequest",
       "order"] then "new-orders"
  else if normalizedCategory ∈
      ["enquiry", "inquiry", "question", "general"] then "enquiries"
  else if normalizedCategory ∈
      ["follow up", "followup", "follow-up"] then "follow-ups"
  else if normalizedCategory ∈
      ["complaint", "complaints", "issue"] then "complaints"
  else if normalizedCategory ∈
      ["return", "returns", "return request", "refund"] then "returns"
  else "enquiries"

/-- The keys of the synonym table of `mapWebhookCategory`. -/
def categorySynonymKeys : List String :=
  ["new order", "neworder", "purchase request", "purchaserequest", "order",
   "enquiry", "inquiry", "question", "general",
   "follow up", "followup", "follow-up",
   "complaint", "complaints", "issue",
   "return", "returns", "return request", "refund"]

/-! ### Presence subscription (`subscribeToPresence`,
`optimizedChatService.ts` lines 285-346) -/

structure PresenceDoc where
  userId : String
  status : String
  lastSeenMs : Option Nat := none
  isTyping : Option Bool := none
  typingInConversation : Option String := none
deriving DecidableEq, Repr

structure UserPresence where
  userId : String
  status : String
  lastSeen : Nat
  isTyping : Bool
  typingInConversation : Option String
deriving DecidableEq, Repr

/-- Record assignment `presenceMap[data.userId] = ...`: replace any
earlier binding for the same user. -/
def mapSet {α : Type} (m : List (String × α)) (k : String) (v : α) :
    List (String × α) :=
  (k, v) :: m.filter (fun e => e.1 ≠ k)

/-- Lookup in a record built with `mapSet`. -/
def mapLookup {α : Type} : List (String × α) → String → Option α
  | [], _ => none
  | (k, v) :: rest, key => if k = key then some v else mapLookup rest key

/-- One presence document converted to a `UserPresence`
(`lastSeen?.toDate() || new Date()`, `isTyping || false`). -/
def presenceOfDoc (now : Nat) (doc : PresenceDoc) : UserPresence :=
  { userId := doc.userId, status := doc.status,
    lastSeen := doc.lastSeenMs.getD now,
    isTyping := doc.isTyping.getD false,
    typingInConversation := doc.typingInConversation }

/-- The `snapshot.docs.forEach` loop building `presenceMap`. -/
def buildPresenceMap (now : Nat) (docs : List PresenceDoc) :
    List (String × UserPresence) :=
  docs.foldl (fun m doc => mapSet m doc.userId (presenceOfDoc now doc)) []

/-- Observable outcome of a `subscribeToPresence` call: the presence map
delivered by the snapshot (empty-input calls deliver the empty map
immediately) and whether a remote listener was registered. -/
structure SubscribePresenceResult where
  delivered : List (String × UserPresence)
  registeredListener : Bool
deriving DecidableEq, Repr

/-- Source `subscribeToPresence(userIds, callback)` against a remote presence
collection `docs`: slice the ids to `MAX_PRESENCE_USERS`; with no ids
left, call back with the empty map and return a no-op unsubscribe without
registering anything; otherwise register the query
`where('userId', 'in', limitedUserIds)` whose snapshot delivers the map of
the matching documents. -/
def subscribeToPresence (userIds : List String) (docs : List PresenceDoc)
    (now : Nat) : SubscribePresenceResult :=
  let limitedUserIds := userIds.take MAX_PRESENCE_USERS
  if limitedUserIds.length = 0 then
    { delivered := [], registeredListener := false }
  else
    { delivered := buildPresenceMap now
        (docs.filter fun doc => decide (doc.userId ∈ limitedUserIds))
      registeredListener := true }

/-! ## Helper lemmas -/

theorem cacheLookup_cacheDelete {α : Type} (c : Cache α) (key : String) :
    cacheLookup (cacheDelete c key) key = none := by
  induction c with
  | nil => rfl
  | cons e rest ih =>
    by_cases h : e.1 = key
    · simpa [cacheDelete, List.filter_cons, h] using ih
    · simpa [cacheDelete, List.filter_cons, h, cacheLookup] using ih

theorem cacheLookup_cacheDelete_ne {α : Type} (c : Cache α) (key k : String)
    (h : k ≠ key) : cacheLookup (cacheDelete c key) k = cacheLookup c k := by
  induction c with
  | nil => rfl
  | cons e rest ih =>
    by_cases he : e.1 = key
    · have hek : e.1 ≠ k := by rw [he]; exact fun hk => h hk.symm
      simpa [cacheDelete, List.filter_cons, he, cacheLookup, hek, Ne.symm h]
        using ih
    · by_cases hk : e.1 = k
      · simp [cacheDelete, List.filter_cons, he, cacheLookup, hk, h]
      · simpa [cacheDelete, List.filter_cons, he, cacheLookup, hk] using ih

/-! ## Claim C5 — cache TTL boundary -/

/-- C5, counterexample.  The claim states that a read at any time
greater than or equal to `s + t` reports the entry absent.  At exactly
`s + t` the source test `Date.now() > cached.expiresAt` is false, so the
value is still returned: an entry set at time 0 with TTL 30000 is returned
by a read at time 30000. -/
theorem c5_counterexample :
    (getCachedData (setCachedData ([] : Cache Nat) "k" 7 0 30000) "k"
      30000).1 = some 7 ∧ 0 + 30000 ≤ 30000 := by
  decide

/-- C5, amended: an entry set at time `s` with TTL `t` is returned
unchanged by every read at time `≤ s + t`, and every read at time
`> s + t` (strictly) reports it absent and removes it from the cache. -/
theorem c5_cache_ttl {α : Type} (c : Cache α) (key : String) (v : α)
    (s t now : Nat) :
    (now ≤ s + t →
      (getCachedData (setCachedData c key v s t) key now).1 = some v) ∧
    (s + t < now →
      (getCachedData (setCachedData c key v s t) key now).1 = none ∧
      cacheLookup (getCachedData (setCachedData c key v s t) key now).2
        key = none) := by
  constructor
  · intro h
    simp [getCachedData, setCachedData, cacheLookup, Nat.not_lt.mpr h]
  · intro h
    refine ⟨?_, ?_⟩
    · simp [getCachedData, setCachedData, cacheLookup, h]
    · have hdel := cacheLookup_cacheDelete
        ((key, ⟨v, s, s + t⟩) :: cacheDelete c key) key
      simpa [getCachedData, setCachedData, cacheLookup, h] using hdel

/-- C5 witness: instantiation of `c5_cache_ttl` at a read inside the TTL
and a read after it. -/
theorem c5_cache_ttl_witness :
    (getCachedData (setCachedData ([] : Cache Nat) "k" 5 0 30000) "k"
      100).1 = some 5 ∧
    (getCachedData (setCachedData ([] : Cache Nat) "k" 5 0 30000) "k"
      30001).1 = none :=
  ⟨(c5_cache_ttl [] "k" 5 0 30000 100).1 (by decide),
   ((c5_cache_ttl [] "k" 5 0 30000 30001).2 (by decide)).1⟩

/-! ## Claim C7 — circuit breaker threshold -/

/-- C7: within the current 24-hour window, `checkRateLimit` returns `true`
for every reads count up to and including the ceiling of 500 and `false`
as soon as the count exceeds it; the 80% warning branch does not affect
the result. -/
theorem c7_checkRateLimit (stats : FirebaseUsageStats) (now : Nat)
    (h : now - stats.lastReset < DAY_MS) :
    (checkRateLimit stats now).1 = true ↔ stats.reads ≤ maxReadsPerDay := by
  simp only [checkRateLimit, getUsageStats, if_neg (Nat.not_le.mpr h)]
  by_cases hr : stats.reads > maxReadsPerDay
  · simp [hr, Nat.not_le.mpr hr]
  · simp [hr, Nat.not_lt.mp hr]

/-- C7 witness: at the ceiling (reads = 500) the breaker still allows
reads. -/
theorem c7_checkRateLimit_witness :
    (checkRateLimit { reads := 500, writes := 9, lastReset := 0 } 0).1 =
      true :=
  (c7_checkRateLimit { reads := 500, writes := 9, lastReset := 0 } 0
    (by decide)).mpr (by decide)

/-! ## Claim C8 — lazy 24-hour window reset -/

/-- C8: once 24 hours have elapsed since `lastReset`, the next
`getUsageStats` call resets both counters to 0 and `lastReset` to the
current time, regardless of how high the counters climbed; before 24
hours have elapsed no call changes the stats, so the reset happens only
lazily inside the snapshot operation. -/
theorem c8_usage_window_reset (stats : FirebaseUsageStats) (now : Nat)
    (h : DAY_MS ≤ now - stats.lastReset) :
    getUsageStats stats now =
      ({ reads := 0, writes := 0, lastReset := now },
       { reads := 0, writes := 0, lastReset := now }) ∧
    ∀ (s : FirebaseUsageStats) (n : Nat), n - s.lastReset < DAY_MS →
      getUsageStats s n = (s, s) := by
  refine ⟨by simp [getUsageStats, if_pos h], ?_⟩
  intro s n hn
  simp [getUsageStats, if_neg (Nat.not_le.mpr hn)]

/-- C8 witness: a snapshot taken exactly 24 hours after the window start
resets counters of 700 reads and 300 writes to zero. -/
theorem c8_usage_window_reset_witness :
    getUsageStats { reads := 700, writes := 300, lastReset := 0 }
      86400000 =
      ({ reads := 0, writes := 0, lastReset := 86400000 },
       { reads := 0, writes := 0, lastReset := 86400000 }) :=
  (c8_usage_window_reset { reads := 700, writes := 300, lastReset := 0 }
    86400000 (by decide)).1

/-! ## Claim C4 — outbound send and the circuit breaker -/

unseal Substring.takeWhileAux Substring.takeRightWhileAux in
/-- C4, counterexample.  With the reads counter at 501 (> ceiling, within
the window) the breaker reports `false`, yet the hook-level `sendMessage`
still performs the write: the message is appended and two writes are
recorded.  The claim that the entire send is skipped when the ceiling is
exceeded is therefore false — no rate-limit check exists on the send
path. -/
theorem c4_counterexample :
    (checkRateLimit { reads := 501, writes := 0, lastReset := 0 }
      1000).1 = false ∧
    (hookSendMessage (some "op")
      { cache := [], usageStats := { reads := 501, writes := 0, lastReset := 0 },
        chatMessages := [], conversations := [("c1", ⟨0, 0, 3⟩)] }
      "c1" "hello" 1000).chatMessages.length = 1 ∧
    (hookSendMessage (some "op")
      { cache := [], usageStats := { reads := 501, writes := 0, lastReset := 0 },
        chatMessages := [], conversations := [("c1", ⟨0, 0, 3⟩)] }
      "c1" "hello" 1000).usageStats.writes = 2 := by
  decide

/-- C4, amended: the hook-level `sendMessage` validates that a current
user exists and that the content trims non-empty, skipping the whole
operation otherwise; when the validation passes it performs the write
unconditionally — the usage circuit breaker is never consulted on the
send path, so the send proceeds even when the read ceiling is exceeded. -/
theorem c4_send_validation (st : ServiceState)
    (uid conversationId content : String) (now : Nat)
    (h : content.trim ≠ "") :
    (hookSendMessage (some uid) st conversationId content now).chatMessages =
      st.chatMessages ++
        [{ conversationId := conversationId, senderId := uid,
           senderType := .operator, content := content.trim,
           timestamp := now }] ∧
    (∀ (st' : ServiceState) (c' s' : String) (n' : Nat),
      hookSendMessage none st' c' s' n' = st') ∧
    (∀ (st' : ServiceState) (u' c' s' : String) (n' : Nat), s'.trim = "" →
      hookSendMessage (some u') st' c' s' n' = st') := by
  refine ⟨?_, fun st' c' s' n' => rfl, fun st' u' c' s' n' hs => ?_⟩
  · simp [hookSendMessage, h, sendMessage]
  · simp [hookSendMessage, hs]

unseal Substring.takeWhileAux Substring.takeRightWhileAux in
/-- C4 witness: instantiation of `c4_send_validation` at a concrete
message. -/
theorem c4_send_validation_witness :
    (hookSendMessage (some "op")
      { cache := [], usageStats := { reads := 0, writes := 0, lastReset := 0 },
        chatMessages := [], conversations := [] } "c1" " hi " 42).chatMessages =
      [{ conversationId := "c1", senderId := "op", senderType := .operator,
         content := "hi", timestamp := 42 }] :=
  (c4_send_validation
    { cache := [], usageStats := { reads := 0, writes := 0, lastReset := 0 },
      chatMessages := [], conversations := [] } "op" "c1" " hi " 42
    (by decide)).1

/-! ## Claim C6 — post-send accounting and cache invalidation -/

/-- C6, counterexample.  `sendMessage` deletes only the cache key
`messages_<c>_50` (the default message limit).  A cache entry for the
same conversation's message list at limit 100 — the key the hook's
message subscription actually populates — survives the send, so not
every cache entry keyed by the conversation's message list is
invalidated. -/
theorem c6_counterexample :
    cacheLookup
      (sendMessage
        { cache := [("messages_c1_100",
            { data := ([] : List ChatMessage), timestamp := 0,
              expiresAt := 100000 })],
          usageStats := { reads := 0, writes := 0, lastReset := 0 },
          chatMessages := [], conversations := [] }
        "c1" "op" .operator "hi" 50).1.cache "messages_c1_100" =
      some { data := ([] : List ChatMessage), timestamp := 0,
             expiresAt := 100000 } := by
  decide

/-- C6, amended: every successful `sendMessage` adds exactly 2 to the
writes counter (and leaves the reads counter untouched), deletes exactly
the cache entry keyed `messages_<c>_50` — the conversation's message list
at the default limit — and leaves every other cache entry, including the
same conversation's message list at other limits and all other
conversations' entries, unchanged. -/
theorem c6_send_effects (st : ServiceState)
    (conversationId senderId : String) (ty : SenderType) (content : String)
    (now : Nat) (k : String)
    (hk : k ≠ messagesCacheKey conversationId DEFAULT_MESSAGE_LIMIT) :
    (sendMessage st conversationId senderId ty content
        now).1.usageStats.writes = st.usageStats.writes + 2 ∧
    (sendMessage st conversationId senderId ty content
        now).1.usageStats.reads = st.usageStats.reads ∧
    cacheLookup (sendMessage st conversationId senderId ty content
        now).1.cache
      (messagesCacheKey conversationId DEFAULT_MESSAGE_LIMIT) = none ∧
    cacheLookup (sendMessage st conversationId senderId ty content
        now).1.cache k = cacheLookup st.cache k := by
  refine ⟨rfl, rfl, ?_, ?_⟩
  · exact cacheLookup_cacheDelete st.cache _
  · exact cacheLookup_cacheDelete_ne st.cache _ k hk

/-- C6 witness: instantiation of `c6_send_effects`; the entry of another
conversation survives and the default-limit entry of the sent-to
conversation is gone. -/
theorem c6_send_effects_witness :
    (sendMessage
      { cache := [("messages_c2_50",
          { data := ([] : List ChatMessage), timestamp := 0,
            expiresAt := 9 })],
        usageStats := { reads := 1, writes := 5, lastReset := 0 },
        chatMessages := [], conversations := [] }
      "c1" "op" .operator "hi" 7).1.usageStats.writes = 5 + 2 ∧
    cacheLookup (sendMessage
      { cache := [("messages_c2_50",
          { data := ([] : List ChatMessage), timestamp := 0,
            expiresAt := 9 })],
        usageStats := { reads := 1, writes := 5, lastReset := 0 },
        chatMessages := [], conversations := [] }
      "c1" "op" .operator "hi" 7).1.cache "messages_c2_50" =
      cacheLookup [("messages_c2_50",
          { data := ([] : List ChatMessage), timestamp := 0,
            expiresAt := 9 })] "messages_c2_50" := by
  refine ⟨(c6_send_effects _ "c1" "op" .operator "hi" 7 "messages_c2_50"
    (by decide)).1, (c6_send_effects _ "c1" "op" .operator "hi" 7
    "messages_c2_50" (by decide)).2.2.2⟩

/-! ## Claim C10 — presence slice and empty-input short-circuit -/

theorem mapLookup_filter_none {α : Type} (m : List (String × α))
    (p : String × α → Bool) (u : String) (h : mapLookup m u = none) :
    mapLookup (m.filter p) u = none := by
  induction m with
  | nil => rfl
  | cons e rest ih =>
    by_cases he : e.1 = u
    · simp [mapLookup, he] at h
    · have hrest : mapLookup rest u = none := by
        simpa [mapLookup, he] using h
      by_cases hp : p e
      · simpa [List.filter_cons, hp, mapLookup, he] using ih hrest
      · simpa [List.filter_cons, hp] using ih hrest

theorem mapLookup_buildPresenceMap_none (now : Nat)
    (docs : List PresenceDoc) (acc : List (String × UserPresence))
    (u : String) (hacc : mapLookup acc u = none)
    (hdocs : ∀ d ∈ docs, d.userId ≠ u) :
    mapLookup
      (docs.foldl (fun m doc => mapSet m doc.userId (presenceOfDoc now doc))
        acc) u = none := by
  induction docs generalizing acc with
  | nil => exact hacc
  | cons d rest ih =>
    have hd : d.userId ≠ u := hdocs d (List.mem_cons_self d rest)
    refine ih (mapSet acc d.userId (presenceOfDoc now d)) ?_
      (fun x hx => hdocs x (List.mem_cons_of_mem d hx))
    simp only [mapSet, mapLookup, hd, if_neg hd]
    exact mapLookup_filter_none acc _ u hacc

/-- C10: `subscribeToPresence` tracks only the first 20 ids
(`MAX_PRESENCE_USERS`): a user whose id is not among the first 20 entries
of the input list never appears in the delivered presence map, whatever
the remote presence collection holds; and on an empty id list the
callback receives the empty map immediately and no remote listener is
registered (a no-op unsubscribe is returned). -/
theorem c10_presence_limit (userIds : List String)
    (docs : List PresenceDoc) (now : Nat) (u : String)
    (h : u ∉ userIds.take MAX_PRESENCE_USERS) :
    mapLookup (subscribeToPresence userIds docs now).delivered u = none ∧
    subscribeToPresence [] docs now =
      { delivered := [], registeredListener := false } := by
  constructor
  · by_cases hlim : (userIds.take MAX_PRESENCE_USERS).length = 0
    · simp [subscribeToPresence, hlim, mapLookup]
    · simp only [subscribeToPresence, hlim, if_neg hlim]
      refine mapLookup_buildPresenceMap_none now _ [] u rfl ?_
      intro d hd
      have := List.of_mem_filter hd
      intro hdu
      rw [hdu] at this
      exact h (by simpa using this)
  · simp [subscribeToPresence]

/-- C10 witness: with 21 distinct user ids, the 21st user stays out of the
delivered presence map even though the remote collection has a document
for them. -/
theorem c10_presence_limit_witness :
    mapLookup
      (subscribeToPresence ((List.range 21).map fun i => "u" ++ toString i)
        [{ userId := "u20", status := "online" }] 5).delivered "u20" =
      none :=
  (c10_presence_limit ((List.range 21).map fun i => "u" ++ toString i)
    [{ userId := "u20", status := "online" }] 5 "u20" (by decide)).1

/-! ## Claim C9 — schema-invariant normalization and category mapping -/

unseal Substring.takeWhileAux Substring.takeRightWhileAux String.mapAux in
/-- C9: a raw record carrying only the legacy-cased fields (`Product`,
`Category`, `Message`, `Phone_number`, `Sender`) normalizes to the same
`category`, `sender` and `message` as the equivalent record carrying only
the modern-cased fields (`product`, `category`, `message`,
`phone_number`, `sender`); and `mapWebhookCategory` matches
case-insensitively after trimming against the synonym table (the
follow-up synonyms all map to `"follow-ups"`) and sends every
unrecognized category to the default `"enquiries"`. -/
theorem c9_normalizer_invariance (p c m ph sv : String) (now idx : Nat) :
    ((normalizeFirebaseDoc now idx
        { Product := some p, Category := some c, Message := some m,
          Phone_number := some ph, Sender := some sv }).category =
      (normalizeFirebaseDoc now idx
        { product := some p, category := some c, message := some m,
          phone_number := some ph, sender := some sv }).category ∧
     (normalizeFirebaseDoc now idx
        { Product := some p, Category := some c, Message := some m,
          Phone_number := some ph, Sender := some sv }).sender =
      (normalizeFirebaseDoc now idx
        { product := some p, category := some c, message := some m,
          phone_number := some ph, sender := some sv }).sender ∧
     (normalizeFirebaseDoc now idx
        { Product := some p, Category := some c, Message := some m,
          Phone_number := some ph, Sender := some sv }).message =
      (normalizeFirebaseDoc now idx
        { product := some p, category := some c, message := some m,
          phone_number := some ph, sender := some sv }).message) ∧
    mapWebhookCategory "follow up" = "follow-ups" ∧
    mapWebhookCategory "FollowUp" = "follow-ups" ∧
    mapWebhookCategory "  Follow-Up  " = "follow-ups" ∧
    (∀ s : String, s.toLower.trim ∉ categorySynonymKeys →
      mapWebhookCategory s = "enquiries") := by
  refine ⟨⟨rfl, rfl, rfl⟩, by decide, by decide, by decide, ?_⟩
  intro s hs
  simp only [categorySynonymKeys, List.mem_cons, List.mem_singleton,
    not_or] at hs
  obtain ⟨h1, h2, h3, h4, h5, h6, h7, h8, h9, h10, h11, h12, h13, h14,
    h15, h16, h17, h18, h19⟩ := hs
  simp [mapWebhookCategory, h1, h2, h3, h4, h5, h6, h7, h8, h9, h10, h11,
    h12, h13, h14, h15, h16, h17, h18, h19]

unseal Substring.takeWhileAux Substring.takeRightWhileAux String.mapAux in
/-- C9 witness: instantiation of `c9_normalizer_invariance` at a concrete
record and a concrete unrecognized category. -/
theorem c9_normalizer_invariance_witness :
    (normalizeFirebaseDoc 0 0
        { Product := some "Tee", Category := some "Complaint",
          Message := some "Hi", Phone_number := some "+1",
          Sender := some "Operator" }).message =
      (normalizeFirebaseDoc 0 0
        { product := some "Tee", category := some "Complaint",
          message := some "Hi", phone_number := some "+1",
          sender := some "Operator" }).message ∧
    mapWebhookCategory "weird-cat" = "enquiries" :=
  ⟨(c9_normalizer_invariance "Tee" "Complaint" "Hi" "+1" "Operator"
      0 0).1.2.2,
   (c9_normalizer_invariance "Tee" "Complaint" "Hi" "+1" "Operator"
      0 0).2.2.2.2 "weird-cat" (by decide)⟩

/-! ## Claim C1 — subscription coalescer -/

theorem setupDebouncedListener_timers (st : CoalescerState) (f delay : Nat)
    (h5 : ∀ t ∈ st.timers, st.timerSlot = some t.1) :
    (setupDebouncedListener st f delay).timers =
      [(st.nextId, f, st.now + delay)] := by
  simp only [setupDebouncedListener]
  cases hts : st.timerSlot with
  | none =>
    cases ht : st.timers with
    | nil => rfl
    | cons a l =>
      have := h5 a (by rw [ht]; exact List.mem_cons_self a l)
      rw [hts] at this
      cases this
  | some tid =>
    have hnil : st.timers.filter (fun t => decide (t.1 ≠ tid)) = [] := by
      rw [List.filter_eq_nil_iff]
      intro a ha
      have hsl := h5 a ha
      rw [hts] at hsl
      have : a.1 = tid := (Option.some_inj.mp hsl).symm
      simp [this]
    simpa using hnil

theorem setupDebouncedListener_live (st : CoalescerState) (f delay : Nat)
    (h4 : ∀ g ∈ st.live, st.listenerSlot = some g) :
    (setupDebouncedListener st f delay).live = [] := by
  simp only [setupDebouncedListener]
  cases hls : st.listenerSlot with
  | none =>
    cases hl : st.live with
    | nil => rfl
    | cons a l =>
      have := h4 a (by rw [hl]; exact List.mem_cons_self a l)
      rw [hls] at this
      cases this
  | some hh =>
    have hnil : st.live.filter (fun x => decide (x ≠ hh)) = [] := by
      rw [List.filter_eq_nil_iff]
      intro a ha
      have hsl := h4 a ha
      rw [hls] at hsl
      have : a = hh := (Option.some_inj.mp hsl).symm
      simp [this]
    simpa using hnil

theorem coalescerInv_step (st : CoalescerState) (e : CoalescerEvent)
    (h : CoalescerInv st) : CoalescerInv (coalescerStep st e) := by
  obtain ⟨h1, h2, h3, h4, h5⟩ := h
  cases e with
  | advance dt => exact ⟨h1, h2, h3, h4, h5⟩
  | ensure f delay =>
    show CoalescerInv (setupDebouncedListener st f delay)
    have ht := setupDebouncedListener_timers st f delay h5
    have hl := setupDebouncedListener_live st f delay h4
    refine ⟨by rw [ht]; simp, by rw [hl]; simp, fun _ => hl, ?_, ?_⟩
    · intro g hg
      rw [hl] at hg
      exact absurd hg (List.not_mem_nil g)
    · intro t htm
      rw [ht] at htm
      simp only [List.mem_singleton] at htm
      rw [htm]
      rfl
  | fire =>
    show CoalescerInv (fireDueTimer st)
    cases hfind : st.timers.find? (fun t => t.2.2 ≤ st.now) with
    | none =>
      have heq : fireDueTimer st = st := by simp [fireDueTimer, hfind]
      rw [heq]
      exact ⟨h1, h2, h3, h4, h5⟩
    | some tr =>
      obtain ⟨tid, f, ft⟩ := tr
      have hmem := List.mem_of_find?_eq_some hfind
      have hne : st.timers ≠ [] := by
        intro hnil
        rw [hnil] at hmem
        exact absurd hmem (List.not_mem_nil _)
      have hlive0 : st.live = [] := h3 hne
      have hsingle : st.timers = [(tid, f, ft)] := by
        cases ht : st.timers with
        | nil => exact absurd ht hne
        | cons a l =>
          rw [ht] at h1 hmem
          cases l with
          | cons b l₂ => simp at h1
          | nil =>
            simp only [List.mem_singleton] at hmem
            rw [hmem]
      have ht0 : (fireDueTimer st).timers = [] := by
        simp only [fireDueTimer]
        rw [hfind, hsingle]
        simp
      have hl1 : (fireDueTimer st).live = [f] := by
        simp only [fireDueTimer]
        rw [hfind, hlive0]
      have hls : (fireDueTimer st).listenerSlot = some f := by
        simp only [fireDueTimer]
        rw [hfind]
      refine ⟨by rw [ht0]; simp, by rw [hl1]; simp,
        fun hne₂ => absurd ht0 hne₂, ?_, ?_⟩
      · intro g hg
        rw [hl1] at hg
        simp only [List.mem_singleton] at hg
        rw [hg, hls]
      · intro t htm
        rw [ht0] at htm
        exact absurd htm (List.not_mem_nil t)

theorem coalescerInv_run (evs : List CoalescerEvent) (st : CoalescerState)
    (h : CoalescerInv st) : CoalescerInv (coalescerRun st evs) := by
  induction evs generalizing st with
  | nil => exact h
  | cons e rest ih => exact ih (coalescerStep st e) (coalescerInv_step st e h)

theorem coalescerInv_init : CoalescerInv initCoalescer := by
  refine ⟨by simp [initCoalescer], by simp [initCoalescer],
    fun h => rfl, fun f hf => ?_, fun t ht => ?_⟩
  · exact absurd hf (List.not_mem_nil f)
  · exact absurd ht (List.not_mem_nil t)

/-- C1: (a) for every event sequence starting from the initial state, at
most one pending timer and at most one live (materialized) handle exist
for the key at any instant; (b) calling `setupDebouncedListener` with
factory `f1`, then again with factory `f2` before `f1`'s settle delay has
elapsed, leaves — once the debounce settles — exactly one live
subscription, produced by `f2`, and `f1` is never invoked. -/
theorem c1_coalescer (f1 f2 d1 d2 t : Nat) (hne : f1 ≠ f2) (ht : t < d1) :
    (∀ evs : List CoalescerEvent,
      CoalescerInv (coalescerRun initCoalescer evs)) ∧
    (coalescerRun initCoalescer
      [.ensure f1 d1, .advance t, .fire, .ensure f2 d2, .advance d2,
        .fire]).live = [f2] ∧
    (coalescerRun initCoalescer
      [.ensure f1 d1, .advance t, .fire, .ensure f2 d2, .advance d2,
        .fire]).invoked = [f2] ∧
    f1 ∉ (coalescerRun initCoalescer
      [.ensure f1 d1, .advance t, .fire, .ensure f2 d2, .advance d2,
        .fire]).invoked := by
  refine ⟨fun evs => coalescerInv_run evs initCoalescer coalescerInv_init,
    ?_⟩
  have hnotdue : ¬(d1 ≤ t) := by omega
  simp [coalescerRun, coalescerStep, setupDebouncedListener, fireDueTimer,
    initCoalescer, List.foldl, List.find?, hnotdue, List.filter]
  exact hne

/-- C1 witness: instantiation of `c1_coalescer` with the source's
1-second debounce delay and a second `ensure` call 500 ms after the
first. -/
theorem c1_coalescer_witness :
    (coalescerRun initCoalescer
      [.ensure 3 1000, .advance 500, .fire, .ensure 4 1000, .advance 1000,
        .fire]).live = [4] ∧
    (coalescerRun initCoalescer
      [.ensure 3 1000, .advance 500, .fire, .ensure 4 1000, .advance 1000,
        .fire]).invoked = [4] ∧
    CoalescerInv (coalescerRun initCoalescer
      [.ensure 3 1000, .advance 500, .fire]) :=
  ⟨(c1_coalescer 3 4 1000 1000 500 (by decide) (by decide)).2.1,
   (c1_coalescer 3 4 1000 1000 500 (by decide) (by decide)).2.2.1,
   (c1_coalescer 3 4 1000 1000 500 (by decide) (by decide)).1
     [.ensure 3 1000, .advance 500, .fire]⟩

/-! ## Claims C2 and C3 — aggregation, dedup, windowing -/

theorem getAllMessages_eq (enabled : List DataSource) (isRateLimited : Bool)
    (webhookMessages : List UnifiedMessage)
    (firebaseData : Option (List RawFirebaseDoc))
    (sheetsData : Option (List SheetsRow)) (now : Nat) :
    getAllMessages enabled isRateLimited webhookMessages firebaseData
        sheetsData now =
      (sortByTimestampDesc (combinedMessages enabled isRateLimited
        webhookMessages firebaseData sheetsData now)).take 100 := rfl

theorem sortByTimestampDesc_perm (l : List UnifiedMessage) :
    (sortByTimestampDesc l).Perm l :=
  List.mergeSort_perm l _

theorem sortByTimestampDesc_sorted (l : List UnifiedMessage) :
    (sortByTimestampDesc l).Pairwise
      (fun a b => b.timestamp ≤ a.timestamp) := by
  have htrans : ∀ a b c : UnifiedMessage,
      decide (b.timestamp ≤ a.timestamp) = true →
      decide (c.timestamp ≤ b.timestamp) = true →
      decide (c.timestamp ≤ a.timestamp) = true := by
    intro a b c hab hbc
    simp only [decide_eq_true_eq] at *
    omega
  have htotal : ∀ a b : UnifiedMessage,
      (decide (b.timestamp ≤ a.timestamp) ||
        decide (a.timestamp ≤ b.timestamp)) = true := by
    intro a b
    simp only [Bool.or_eq_true, decide_eq_true_eq]
    exact Nat.le_total b.timestamp a.timestamp
  exact (@List.sorted_mergeSort UnifiedMessage
    (fun a b => decide (b.timestamp ≤ a.timestamp)) htrans htotal l).imp
    (fun h => of_decide_eq_true h)

theorem combinedMessages_length_le (enabled : List DataSource)
    (isRateLimited : Bool) (webhookMessages : List UnifiedMessage)
    (firebaseData : Option (List RawFirebaseDoc))
    (sheetsData : Option (List SheetsRow)) (now : Nat) :
    (combinedMessages enabled isRateLimited webhookMessages firebaseData
      sheetsData now).length ≤ 130 := by
  have hw : (if DataSource.webhook ∈ enabled then webhookMessages.take 15
      else []).length ≤ 15 := by
    split
    · exact List.length_take_le 15 webhookMessages
    · simp
  have hf : (if DataSource.firebase ∈ enabled ∧ ¬isRateLimited then
      getFirebaseMessages enabled isRateLimited firebaseData now
      else []).length ≤ 100 := by
    split
    · simp only [getFirebaseMessages]
      split
      · simp
      · rw [List.length_mapIdx]
        exact List.length_take_le 100 _
    · simp
  have hs : (if DataSource.google_sheets ∈ enabled then
      getSheetsMessages enabled sheetsData now else []).length ≤ 15 := by
    split
    · simp only [getSheetsMessages]
      split
      · simp
      · rw [List.length_mapIdx]
        exact List.length_take_le 15 _
    · simp
  simp only [combinedMessages, List.length_append]
  omega

unseal List.merge List.mergeSort in
/-- C2, counterexample.  One Firebase document and one Google Sheets row
with identical counterparty id (`phone_number`), free text (`message`)
and subject (`product`), both origins enabled: `getAllMessages` keeps
both, so the aggregate holds two `UnifiedMessage`s for the pair, not
one — it performs no deduplication. -/
theorem c2_counterexample :
    (getAllMessages [DataSource.firebase, DataSource.google_sheets] false
      []
      (some [{ phone_number := some "111", message := some "hello",
               product := some "tee", ReceivedAt := some 10 }])
      (some [{ phone_number := "111", name := "Ava", Product := "tee",
               Category := "enquiry", Intent := "general",
               Message := "hello", timestampMs := some 5 }])
      0).countP
      (fun msg => msg.phone_number = "111" ∧ msg.message = "hello" ∧
        msg.product = "tee") = 2 := by
  decide

/-- C2, amended: `getAllMessages` deduplicates nothing — whenever the
combined input fits the 100-message window, every message of the combined
per-origin slices appears in the aggregate exactly as often as in the
input, so two records from different origins agreeing on
`(phone_number, message, product)` yield two aggregate entries.  The
content-match predicate exists as `isDuplicateMessage`, which holds
exactly when some existing message matches the webhook record's
`(phone_number, message, product)`, but it is consulted only on the
webhook ingest path, which is disabled in this revision. -/
theorem c2_no_dedup (p : UnifiedMessage → Bool) (enabled : List DataSource)
    (isRateLimited : Bool) (webhookMessages : List UnifiedMessage)
    (firebaseData : Option (List RawFirebaseDoc))
    (sheetsData : Option (List SheetsRow)) (now : Nat)
    (h : (combinedMessages enabled isRateLimited webhookMessages
      firebaseData sheetsData now).length ≤ 100) :
    (getAllMessages enabled isRateLimited webhookMessages firebaseData
        sheetsData now).countP p =
      (combinedMessages enabled isRateLimited webhookMessages firebaseData
        sheetsData now).countP p ∧
    (∀ (newMsg : WebhookMessage) (existing : List UnifiedMessage),
      isDuplicateMessage newMsg existing = true ↔
      ∃ e ∈ existing, e.phone_number = newMsg.phone_number ∧
        some e.message = jsOr newMsg.message newMsg.Message ∧
        some e.product = jsOr newMsg.product newMsg.Product) := by
  constructor
  · have hperm := sortByTimestampDesc_perm (combinedMessages enabled
      isRateLimited webhookMessages firebaseData sheetsData now)
    have hlen : (sortByTimestampDesc (combinedMessages enabled
        isRateLimited webhookMessages firebaseData sheetsData
        now)).length ≤ 100 := by
      rw [hperm.length_eq]
      exact h
    rw [getAllMessages_eq, List.take_of_length_le hlen]
    exact hperm.countP_eq p
  · intro newMsg existing
    simp [isDuplicateMessage, List.any_eq_true]

/-- C2 witness: instantiation of `c2_no_dedup` on the two-origin pair of
`c2_counterexample`; the aggregate count equals the combined input
count. -/
theorem c2_no_dedup_witness :
    (getAllMessages [DataSource.firebase, DataSource.google_sheets] false
      []
      (some [{ phone_number := some "111", message := some "hello",
               product := some "tee", ReceivedAt := some 10 }])
      (some [{ phone_number := "111", name := "Ava", Product := "tee",
               Category := "enquiry", Intent := "general",
               Message := "hello", timestampMs := some 5 }])
      0).countP (fun msg => msg.phone_number = "111") =
    (combinedMessages [DataSource.firebase, DataSource.google_sheets] false
      []
      (some [{ phone_number := some "111", message := some "hello",
               product := some "tee", ReceivedAt := some 10 }])
      (some [{ phone_number := "111", name := "Ava", Product := "tee",
               Category := "enquiry", Intent := "general",
               Message := "hello", timestampMs := some 5 }])
      0).countP (fun msg => msg.phone_number = "111") :=
  (c2_no_dedup (fun msg => msg.phone_number = "111")
    [DataSource.firebase, DataSource.google_sheets] false []
    (some [{ phone_number := some "111", message := some "hello",
             product := some "tee", ReceivedAt := some 10 }])
    (some [{ phone_number := "111", name := "Ava", Product := "tee",
             Category := "enquiry", Intent := "general",
             Message := "hello", timestampMs := some 5 }])
    0 (by decide)).1

unseal List.merge List.mergeSort in
/-- C3, counterexample.  Per-origin slicing happens before the sort: with
16 sheets rows whose timestamps increase with row position, the slice to
15 rows drops the newest message (timestamp 15) while the aggregate keeps
the 15 older ones, so truncation does not always drop the oldest items;
and with 150 rows of distinct timestamps the aggregate holds 15 messages,
not the 100 most recent. -/
theorem c3_counterexample :
    ((getAllMessages [DataSource.google_sheets] false [] none
      (some ((List.range 16).map fun i =>
        { phone_number := "1", name := "n", Product := "p",
          Category := "c", Intent := "i", Message := "m",
          timestampMs := some i })) 99).all
      fun msg => msg.timestamp ≤ 14) = true ∧
    (getAllMessages [DataSource.google_sheets] false [] none
      (some ((List.range 16).map fun i =>
        { phone_number := "1", name := "n", Product := "p",
          Category := "c", Intent := "i", Message := "m",
          timestampMs := some i })) 99).length = 15 ∧
    (getAllMessages [DataSource.google_sheets] false [] none
      (some ((List.range 150).map fun i =>
        { phone_number := "1", name := "n", Product := "p",
          Category := "c", Intent := "i", Message := "m",
          timestampMs := some i })) 99).length = 15 := by
  decide

/-- C3, amended: inside `getAllMessages` the final truncation to 100 is
applied after sorting the combined list descending by timestamp, so
relative to that combined list the aggregate is sorted and every dropped
element is no newer than every kept one; but each origin is sliced before
the sort (webhook to 15, Firebase to 100, sheets to 15), so the combined
list never exceeds 130 messages and, with 150 incoming messages, at least
20 are discarded by position before any timestamp comparison — the
aggregate need not be the 100 most recent of the original messages. -/
theorem c3_windowing (enabled : List DataSource) (isRateLimited : Bool)
    (webhookMessages : List UnifiedMessage)
    (firebaseData : Option (List RawFirebaseDoc))
    (sheetsData : Option (List SheetsRow)) (now : Nat) :
    getAllMessages enabled isRateLimited webhookMessages firebaseData
        sheetsData now =
      (sortByTimestampDesc (combinedMessages enabled isRateLimited
        webhookMessages firebaseData sheetsData now)).take 100 ∧
    (getAllMessages enabled isRateLimited webhookMessages firebaseData
        sheetsData now).Pairwise
      (fun a b => b.timestamp ≤ a.timestamp) ∧
    ((getAllMessages enabled isRateLimited webhookMessages firebaseData
        sheetsData now).all fun x =>
      ((sortByTimestampDesc (combinedMessages enabled isRateLimited
          webhookMessages firebaseData sheetsData now)).drop 100).all
        fun y => y.timestamp ≤ x.timestamp) = true ∧
    (combinedMessages enabled isRateLimited webhookMessages firebaseData
      sheetsData now).length ≤ 130 := by
  refine ⟨rfl, ?_, ?_,
    combinedMessages_length_le enabled isRateLimited webhookMessages
      firebaseData sheetsData now⟩
  · rw [getAllMessages_eq]
    exact (sortByTimestampDesc_sorted _).sublist (List.take_sublist 100 _)
  · have hsorted := sortByTimestampDesc_sorted (combinedMessages enabled
      isRateLimited webhookMessages firebaseData sheetsData now)
    have hsplit : (sortByTimestampDesc (combinedMessages enabled
        isRateLimited webhookMessages firebaseData sheetsData
        now)).Pairwise (fun a b => b.timestamp ≤ a.timestamp) := hsorted
    rw [← List.take_append_drop 100 (sortByTimestampDesc
      (combinedMessages enabled isRateLimited webhookMessages firebaseData
        sheetsData now))] at hsplit
    obtain ⟨-, -, hcross⟩ := List.pairwise_append.mp hsplit
    rw [getAllMessages_eq]
    simp only [List.all_eq_true, decide_eq_true_eq]
    intro x hx y hy
    exact hcross x hx y hy
